import Mathlib

/-!
# Verification of `pydantic-firestore` against its specification

Shallow embedding of the core of the `pydantic_firestore` package:

* `FirestorePath` (src/pydantic_firestore/path.py)
* `FirestoreDocument` / `FirestoreCollection` (src/pydantic_firestore/reference.py)
* flattening (src/pydantic_firestore/utils.py)
* sentinel serialization (src/pydantic_firestore/transforms.py)
* the model binder `_firestore_path` and the write dispatch
  (src/pydantic_firestore/model.py)

Python tuples of strings become `List String`; fallible operations
(pydantic validation, Python indexing that may raise `IndexError`,
sequence unpacking that may raise `ValueError`) return `Except String _`.
-/

namespace PydanticFirestore

/-! ## Python negative indexing

`t[i]` on a Python tuple: a negative index counts from the end; an
out-of-range index raises `IndexError`. -/

/-- A negative Python index counts from the end of the sequence. -/
def pyNormIdx (len : Nat) (i : Int) : Int :=
  if i < 0 then i + len else i

def pyGet (l : List String) (i : Int) : Except String String :=
  if h : 0 ≤ pyNormIdx l.length i ∧ pyNormIdx l.length i < l.length then
    .ok (l.get ⟨(pyNormIdx l.length i).toNat, by omega⟩)
  else
    .error "IndexError"

/-! ## `FirestorePath` (path.py)

`root: tuple[str, ...]`, `model_config = ConfigDict(frozen=True)`. -/

structure FirestorePath where
  root : List String
deriving DecidableEq, Repr

/-- Input of pydantic validation for `FirestorePath`: either a string or a
sequence of segments. -/
inductive PathInput where
  | str (s : String)
  | segs (l : List String)

/-- `FirestorePath.validate_path` (path.py, mode="before"): a string is
split on "/"; any other value is returned unchanged. No check is
performed. -/
def validate_path : PathInput → List String
  | .str s => s.splitOn "/"
  | .segs l => l

/-- Construction of a `FirestorePath` from a string or a sequence of
segments: the before-validator `validate_path` runs, then pydantic
validates the result against `tuple[str, ...]`, which accepts every
sequence of strings (the empty one included).  The source contains no
raise statement on this path, so the error branch is never taken. -/
def FirestorePath.construct (v : PathInput) : Except String FirestorePath :=
  .ok ⟨validate_path v⟩

/-- `FirestorePath.id`: `self.root[-1]`. -/
def FirestorePath.pathId (p : FirestorePath) : Except String String :=
  pyGet p.root (-1)

/-- `FirestorePath.root_id`: `self.root[0]`. -/
def FirestorePath.root_id (p : FirestorePath) : Except String String :=
  pyGet p.root 0

/-- `FirestorePath.parent_id`: `self.root[-2]`. -/
def FirestorePath.parent_id (p : FirestorePath) : Except String String :=
  pyGet p.root (-2)

/-- `FirestorePath.is_root`: `len(self.root) == 1`. -/
def FirestorePath.is_root (p : FirestorePath) : Bool :=
  p.root.length == 1

/-- `FirestorePath.is_document`: `len(self.root) % 2 == 0`. -/
def FirestorePath.is_document (p : FirestorePath) : Bool :=
  p.root.length % 2 == 0

/-- `FirestorePath.is_collection`: `len(self.root) % 2 == 1`. -/
def FirestorePath.is_collection (p : FirestorePath) : Bool :=
  p.root.length % 2 == 1

/-- `FirestorePath.parent`: `self.__class__(self.root[:-1])` when
`len(self.root) > 1`, otherwise `None`. -/
def FirestorePath.parent (p : FirestorePath) : Option FirestorePath :=
  if p.root.length > 1 then some ⟨p.root.dropLast⟩ else none

/-- `FirestorePath.__truediv__`: `self.__class__((*self.root, str(other)))`;
for a string argument `str` is the identity. -/
def FirestorePath.truediv (p : FirestorePath) (other : String) : FirestorePath :=
  ⟨p.root ++ [other]⟩

/-! ## References (reference.py)

`FirestoreDocument` / `FirestoreCollection` each wrap a `FirestorePath`
and carry a `model_validator(mode="after")` asserting the parity; a
failed assertion makes pydantic construction fail. -/

structure FirestoreDocument where
  root : FirestorePath
deriving DecidableEq, Repr

structure FirestoreCollection where
  root : FirestorePath
deriving DecidableEq, Repr

/-- `FirestoreDocument.check_path`: `assert self.root.is_document,
f"Path is not a document: {self.root}"`; construction from a path runs
this validator. -/
def FirestoreDocument.construct (p : FirestorePath) : Except String FirestoreDocument :=
  if p.is_document then .ok ⟨p⟩
  else .error ("Path is not a document: " ++ String.intercalate "/" p.root)

/-- `FirestoreCollection.check_path`: `assert self.root.is_collection,
f"Path is not a collection: {self.root}"`. -/
def FirestoreCollection.construct (p : FirestorePath) : Except String FirestoreCollection :=
  if p.is_collection then .ok ⟨p⟩
  else .error ("Path is not a collection: " ++ String.intercalate "/" p.root)

/-! ## Sentinels and serialization (transforms.py) -/

/-- `Sentinel(StrEnum)`: the seven tags. -/
inductive Sentinel where
  | firestore_timestamp
  | firestore_delete
  | firestore_remove
  | firestore_union
  | firestore_increment
  | firestore_maximum
  | firestore_minimum
deriving DecidableEq, Repr

/-- The `StrEnum` string value of each tag (`auto()` lower-cases the
member name). -/
def Sentinel.strValue : Sentinel → String
  | .firestore_timestamp => "firestore_timestamp"
  | .firestore_delete => "firestore_delete"
  | .firestore_remove => "firestore_remove"
  | .firestore_union => "firestore_union"
  | .firestore_increment => "firestore_increment"
  | .firestore_maximum => "firestore_maximum"
  | .firestore_minimum => "firestore_minimum"

/-- `x in Sentinel` for a string `x` (StrEnum membership). -/
def Sentinel.ofString (s : String) : Option Sentinel :=
  if s = "firestore_timestamp" then some .firestore_timestamp
  else if s = "firestore_delete" then some .firestore_delete
  else if s = "firestore_remove" then some .firestore_remove
  else if s = "firestore_union" then some .firestore_union
  else if s = "firestore_increment" then some .firestore_increment
  else if s = "firestore_maximum" then some .firestore_maximum
  else if s = "firestore_minimum" then some .firestore_minimum
  else none

/-- Python values flowing through serialization: scalars, strings,
sentinel tags, tuples, string-keyed mappings, and the backend transform
objects produced by `Sentinel.firestore_mapping` (`SERVER_TIMESTAMP`,
`DELETE_FIELD`, `ArrayRemove`, `ArrayUnion`, `Increment`, `Maximum`,
`Minimum`). -/
inductive FValue where
  | vint (n : Int)
  | vstr (s : String)
  | vsent (t : Sentinel)
  | vtuple (l : List FValue)
  | vmap (fields : List (String × FValue))
  | serverTimestamp
  | deleteField
  | arrayRemove (v : FValue)
  | arrayUnion (v : FValue)
  | increment (v : FValue)
  | maximum (v : FValue)
  | minimum (v : FValue)

/-- `Sentinel.to_firestore`: look the tag up in `firestore_mapping` and
apply the resulting constructor to `value`; the TIMESTAMP and DELETE
entries are `lambda _: ...` and ignore the payload. -/
def Sentinel.to_firestore (s : Sentinel) (value : FValue) : FValue :=
  match s with
  | .firestore_timestamp => .serverTimestamp
  | .firestore_delete => .deleteField
  | .firestore_remove => .arrayRemove value
  | .firestore_union => .arrayUnion value
  | .firestore_increment => .increment value
  | .firestore_maximum => .maximum value
  | .firestore_minimum => .minimum value

/-- The test of `_serialize_sentinel`: `isinstance(value, tuple) and
len(value) == 2 and (isinstance(value[0], Sentinel) or value[0] in
Sentinel)`; on success returns the tag and the payload. -/
def sentinelPair : FValue → Option (Sentinel × FValue)
  | .vtuple [.vsent t, payload] => some (t, payload)
  | .vtuple [.vstr s, payload] => (Sentinel.ofString s).map (fun t => (t, payload))
  | _ => none

/-- `_serialize_sentinel(value, handler, info)`: a 2-tuple whose head is
a `Sentinel` (or a string in `Sentinel`) is replaced by
`Sentinel(sentinel).to_firestore(value=handler(value))`; anything else is
returned as `handler(value)`.  The function itself raises nothing; only
the wrapped `handler` may fail. -/
def serialize_sentinel (handler : FValue → Except String FValue)
    (value : FValue) : Except String FValue :=
  match sentinelPair value with
  | some (t, payload) => (handler payload).map (fun v => t.to_firestore v)
  | none => handler value

/-! ## Flattening (utils.py)

`FieldPath` objects of the backend library are sequences of field-name
components; `+ key` appends a component, equality and set membership
compare component sequences.  We model a `FieldPath` as `List String`
(per spec §4.3 the string escaping of `to_api_repr` is a backend-boundary
concern and is not modelled). -/

/-- `FieldPath.from_string` of the backend library on simple paths:
split on ".". -/
def FieldPath.from_string (s : String) : List String :=
  s.splitOn "."

/-- `FieldPath.to_api_repr` of the backend library on simple components:
join with "." (escaping of special characters not modelled). -/
def FieldPath.to_api_repr (l : List String) : String :=
  String.intercalate "." l

mutual
/-- The body of the `for key, value in obj.items()` loop of `_to_flatten`
(utils.py): `field = parent + key`; if `field not in exclude` and the
value is a mapping, recurse and splice the result in, else append
`(field, value)`. -/
def flattenItem (exclude : List (List String)) (parent : List String)
    (key : String) (value : FValue) : List (List String × FValue) :=
  let field := parent ++ [key]
  match value with
  | .vmap l =>
      if field ∉ exclude then to_flatten_aux exclude field l
      else [(field, .vmap l)]
  | v => [(field, v)]

/-- `_to_flatten(obj, exclude=exclude, parent=parent)` (utils.py):
iterate the items of `obj`, collecting the loop body's output; keys of a
Python dict are distinct, so collecting into a `dict` keeps all pairs. -/
def to_flatten_aux (exclude : List (List String)) (parent : List String) :
    List (String × FValue) → List (List String × FValue)
  | [] => []
  | (k, v) :: rest =>
      flattenItem exclude parent k v ++ to_flatten_aux exclude parent rest
end

/-- `to_flatten(obj, exclude=...)` (utils.py): parse each exclusion
string into a `FieldPath`, run `_to_flatten` from the empty parent, and
render the output keys with `to_api_repr`. -/
def to_flatten (obj : List (String × FValue)) (exclude : Option (List String)) :
    List (String × FValue) :=
  let ex := (exclude.getD []).map FieldPath.from_string
  (to_flatten_aux ex [] obj).map (fun fv => (FieldPath.to_api_repr fv.1, fv.2))

/-- Whether a value is a nested mapping (`isinstance(value, MutableMapping)`). -/
def isMapping : FValue → Bool
  | .vmap _ => true
  | _ => false

/-- The items of a mapping value. -/
def mapItems : FValue → List (String × FValue)
  | .vmap l => l
  | _ => []

mutual
/-- Modelled from the spec (§4.3), for comparison with `flattenItem`:
"At each node, compute its dotted path by joining ancestor keys. If the
computed path is in the exclusion set, OR the node's value is not itself
a nested mapping, emit `(path, value)` as a leaf and stop descending.
Otherwise recurse into each child key."  Paths are the joined sequences
of ancestor keys; exclusion is exact path match. -/
def flattenSpecNode (exclude : List (List String)) (path : List String)
    (value : FValue) : List (List String × FValue) :=
  if h : path ∈ exclude ∨ isMapping value = false then [(path, value)]
  else flattenSpecChildren exclude path (mapItems value)
termination_by sizeOf value
decreasing_by
  simp_wf
  rcases value with _ | _ | _ | _ | l | _ | _ | _ | _ | _ | _ | _ <;>
    simp [isMapping, mapItems] at h ⊢ <;> omega

/-- Modelled from the spec (§4.3): recurse into each child key of a node,
extending the node's path by the child key. -/
def flattenSpecChildren (exclude : List (List String)) (path : List String) :
    List (String × FValue) → List (List String × FValue)
  | [] => []
  | (k, v) :: rest =>
      flattenSpecNode exclude (path ++ [k]) v ++
        flattenSpecChildren exclude path rest
termination_by l => sizeOf l
decreasing_by
  all_goals simp_wf
  all_goals omega
end

/-! ## Location/model binder (model.py)

A `FirestoreModel` instance, as seen by `_firestore_path`: the class
attribute `firestore_location` (the location template) and the values of
the designated attributes, read reflectively with `getattr`:
`getattr(self, self.firestore_id_field)` and, in declared order,
`getattr(self, f)` for `f` in `firestore_path_fields`. -/

structure ModelInstance where
  firestore_location : List String
  idFieldValue : String
  pathFieldValues : List String

/-- `FirestoreModel._firestore_path(self, *args)` (model.py 619-628):
if `len(args) == len(self.firestore_location)` then `id, *args = args`
(raising `ValueError` on an empty sequence); elif
`len(args) == len(self.firestore_location) - 1` (Python integers, so
`-1` for an empty template) the id is read from the id field; else the id
and the path segments are read from the designated fields. -/
def firestore_path_resolve (m : ModelInstance) (args : List String) :
    Except String (String × List String) :=
  if args.length = m.firestore_location.length then
    match args with
    | id :: rest => .ok (id, rest)
    | [] => .error "ValueError: not enough values to unpack"
  else if (args.length : Int) = (m.firestore_location.length : Int) - 1 then
    .ok (m.idFieldValue, args)
  else
    .ok (m.idFieldValue, m.pathFieldValues)

/-! ## Write dispatch (model.py)

`firestore_create` / `firestore_set` / `firestore_update` all call
`firestore_write(method, source, id, *args, data=...)`, which classifies
the source with `source_to_handler` and calls `handler.write(method,
reference, data=data, **kwargs)`; every handler (`FirestoreHandler`,
`AsyncFirestoreHandler`, `TransactionHandler`, `BulkHandler`) forwards
`data` unchanged to the backend call.  We record the dispatched call. -/

inductive Source where
  | client
  | asyncClient
  | transaction
  | asyncTransaction
  | writeBatch
  | asyncWriteBatch
  | bulkWriter
deriving DecidableEq, Repr

inductive HandlerKind where
  | direct
  | asyncDirect
  | transactional
  | bulk
deriving DecidableEq, Repr

/-- `source_to_handler` (model.py): transactions and batches get a
`TransactionHandler`, a `BulkWriter` gets a `BulkHandler`, a `Client`
the fallback `FirestoreHandler`, an `AsyncClient` the
`AsyncFirestoreHandler`. -/
def source_to_handler : Source → HandlerKind
  | .transaction => .transactional
  | .asyncTransaction => .transactional
  | .writeBatch => .transactional
  | .asyncWriteBatch => .transactional
  | .bulkWriter => .bulk
  | .client => .direct
  | .asyncClient => .asyncDirect

/-- The backend call issued by a handler: which handler ran, the logical
method, the document coordinates, and the data payload (each handler
passes `data` through to its writer verbatim). -/
structure WriteCall where
  handler : HandlerKind
  method : String
  docId : String
  args : List String
  data : Option (List (String × FValue))

/-- `FirestoreModel.firestore_write(method, source, id, *args, data=...)`
(model.py): classify the source and dispatch to the handler with the
data unchanged. -/
def firestore_write (method : String) (source : Source) (id : String)
    (args : List String) (data : Option (List (String × FValue))) : WriteCall :=
  ⟨source_to_handler source, method, id, args, data⟩

/-- `FirestoreModel.firestore_create` (model.py 473-489): dispatches
`"create"` with `data=cls.firestore_dump(data, **kwargs)`; the dumped
record (`dumped`) is passed through unflattened. -/
def firestore_create (source : Source) (dumped : List (String × FValue))
    (id : String) (args : List String) : WriteCall :=
  firestore_write "create" source id args (some dumped)

/-- `FirestoreModel.firestore_set` (model.py 491-507): dispatches
`"set"` with the dumped record passed through unflattened. -/
def firestore_set (source : Source) (dumped : List (String × FValue))
    (id : String) (args : List String) : WriteCall :=
  firestore_write "set" source id args (some dumped)

/-- `FirestoreModel.firestore_update` (model.py 564-584): dispatches
`"update"` with `data=to_flatten(cls.firestore_dump(data,
exclude_unset=True, **kwargs), exclude=ignore_flatten)`. -/
def firestore_update (source : Source) (dumped : List (String × FValue))
    (id : String) (args : List String) (ignore_flatten : Option (List String)) :
    WriteCall :=
  firestore_write "update" source id args (some (to_flatten dumped ignore_flatten))

/-! ## Helper lemmas about Python indexing -/

theorem pyGet_neg_one (l : List String) (h : l ≠ []) :
    pyGet l (-1) = .ok (l.getLast h) := by
  have hl : 0 < l.length := List.length_pos.mpr h
  have hn : pyNormIdx l.length (-1) = (l.length : Int) - 1 := by
    simp only [pyNormIdx]
    rw [if_pos (by omega)]
    omega
  have htn : (pyNormIdx l.length (-1)).toNat = l.length - 1 := by
    rw [hn]; omega
  unfold pyGet
  rw [dif_pos (by constructor <;> rw [hn] <;> omega)]
  congr 1
  rw [List.getLast_eq_getElem]
  simp only [List.get_eq_getElem, htn]

theorem pyGet_neg_two_long (l : List String) (init : List String) (x y : String)
    (hdec : l = init ++ [x, y]) : pyGet l (-2) = .ok x := by
  have hl : l.length = init.length + 2 := by
    subst hdec; simp
  have hn : pyNormIdx l.length (-2) = (init.length : Int) := by
    simp only [pyNormIdx]
    rw [if_pos (by omega)]
    omega
  have htn : (pyNormIdx l.length (-2)).toNat = init.length := by
    rw [hn]; omega
  unfold pyGet
  rw [dif_pos (by constructor <;> rw [hn] <;> omega)]
  congr 1
  simp only [List.get_eq_getElem, htn]
  subst hdec
  rw [List.getElem_append_right (by omega)]
  simp

theorem pyGet_neg_two_short (l : List String) (hl : l.length ≤ 1) :
    pyGet l (-2) = .error "IndexError" := by
  unfold pyGet
  rw [dif_neg]
  intro ⟨h0, h1⟩
  simp only [pyNormIdx] at h0 h1
  rw [if_pos (by omega)] at h0
  omega

/-! ## Claim theorems -/

/-- C2 (counterexample): the claim says constructing a Path from a
zero-length sequence fails with `MalformedPathError`; in the code
`validate_path` performs no such check and construction from the empty
sequence succeeds, so no error is raised. -/
theorem C2_counterexample :
    ¬ ∃ e, FirestorePath.construct (PathInput.segs []) = Except.error e := by
  rintro ⟨e, he⟩
  simp [FirestorePath.construct] at he

/-- C2 (amended): constructing a Path never fails: every segment
sequence — the zero-length one and sequences containing empty segments
included — is accepted verbatim, and constructing from a string splits
it on "/" and always succeeds.  In particular every sequence of
non-empty segments of length ≥ 1 succeeds. -/
theorem C2_amended :
    (∀ l : List String, FirestorePath.construct (PathInput.segs l) = .ok ⟨l⟩) ∧
    (∀ s : String, FirestorePath.construct (PathInput.str s) = .ok ⟨s.splitOn "/"⟩) :=
  ⟨fun _ => rfl, fun _ => rfl⟩

/-- C8: for every non-empty segment sequence, `is_document` holds iff
the length is even, exactly one of `is_document` / `is_collection`
holds, and both predicates depend only on the segment count. -/
theorem C8_parity (p : FirestorePath) (hne : p.root ≠ []) :
    (p.is_document = (p.root.length % 2 == 0)) ∧
    (p.is_document = !p.is_collection) ∧
    (∀ q : FirestorePath, p.root.length = q.root.length →
      p.is_document = q.is_document ∧ p.is_collection = q.is_collection) := by
  refine ⟨rfl, ?_, ?_⟩
  · simp only [FirestorePath.is_document, FirestorePath.is_collection]
    rcases Nat.mod_two_eq_zero_or_one p.root.length with h | h <;> simp [h]
  · intro q hq
    constructor <;>
      simp only [FirestorePath.is_document, FirestorePath.is_collection, hq]

/-- C8 (witness): the theorem applied to the path `("a", "b")`. -/
theorem C8_parity_witness :
    (FirestorePath.mk ["a", "b"]).is_document =
        ((FirestorePath.mk ["a", "b"]).root.length % 2 == 0) ∧
    (FirestorePath.mk ["a", "b"]).is_document =
        !(FirestorePath.mk ["a", "b"]).is_collection :=
  ⟨(C8_parity ⟨["a", "b"]⟩ (by simp)).1, (C8_parity ⟨["a", "b"]⟩ (by simp)).2.1⟩

/-- C9: for every Path with more than one segment, appending its id to
its parent yields the Path back; appending never mutates (it builds a
new Path whose segments are the old ones plus one); `parent` of a
one-segment Path is `None`. -/
theorem C9_parent_append (p : FirestorePath) :
    (p.root.length > 1 →
      ∃ (q : FirestorePath) (i : String),
        p.parent = some q ∧ p.pathId = .ok i ∧ q.truediv i = p) ∧
    (∀ s, (p.truediv s).root = p.root ++ [s]) ∧
    (p.root.length = 1 → p.parent = none) := by
  refine ⟨?_, fun _ => rfl, ?_⟩
  · intro hlen
    have hne : p.root ≠ [] := by
      intro h
      rw [h] at hlen
      simp at hlen
    refine ⟨⟨p.root.dropLast⟩, p.root.getLast hne, ?_, ?_, ?_⟩
    · simp only [FirestorePath.parent]
      rw [if_pos hlen]
    · exact pyGet_neg_one p.root hne
    · simp only [FirestorePath.truediv]
      rw [List.dropLast_append_getLast hne]
  · intro hlen
    simp only [FirestorePath.parent]
    rw [if_neg (by omega)]

/-- C9 (witness): the theorem applied to the path `("a", "b", "c")` and
the path `("a",)`. -/
theorem C9_parent_append_witness :
    (∃ (q : FirestorePath) (i : String),
        (FirestorePath.mk ["a", "b", "c"]).parent = some q ∧
        (FirestorePath.mk ["a", "b", "c"]).pathId = .ok i ∧
        q.truediv i = FirestorePath.mk ["a", "b", "c"]) ∧
    (FirestorePath.mk ["a"]).parent = none :=
  ⟨(C9_parent_append ⟨["a", "b", "c"]⟩).1 (by simp),
   (C9_parent_append ⟨["a"]⟩).2.2 (by simp)⟩

/-- C10: `parent_id` on a one-segment path raises `IndexError` (despite
the declared return type `str | None`); on a path of two or more
segments it returns the second-to-last segment. -/
theorem C10_parent_id (p : FirestorePath) :
    (p.root.length = 1 → p.parent_id = .error "IndexError") ∧
    (∀ (init : List String) (x y : String), p.root = init ++ [x, y] →
        p.parent_id = .ok x) := by
  constructor
  · intro hlen
    exact pyGet_neg_two_short p.root (by omega)
  · intro init x y hdec
    exact pyGet_neg_two_long p.root init x y hdec

/-- C10 (witness): the theorem applied to the paths `("a",)` and
`("a", "b", "c")`. -/
theorem C10_parent_id_witness :
    (FirestorePath.mk ["a"]).parent_id = .error "IndexError" ∧
    (FirestorePath.mk ["a", "b", "c"]).parent_id = .ok "b" :=
  ⟨(C10_parent_id ⟨["a"]⟩).1 (by simp),
   (C10_parent_id ⟨["a", "b", "c"]⟩).2 ["a"] "b" "c" (by simp)⟩

/-- C4: constructing a `FirestoreDocument` from an odd-length Path
fails, constructing a `FirestoreCollection` from an even-length Path
fails; with the matching parity construction succeeds and the resulting
object's path equals the input Path. -/
theorem C4_reference_parity (p : FirestorePath) :
    (p.root.length % 2 = 1 → ∃ e, FirestoreDocument.construct p = .error e) ∧
    (p.root.length % 2 = 0 → ∃ e, FirestoreCollection.construct p = .error e) ∧
    (p.root.length % 2 = 0 → FirestoreDocument.construct p = .ok ⟨p⟩) ∧
    (p.root.length % 2 = 1 → FirestoreCollection.construct p = .ok ⟨p⟩) := by
  refine ⟨?_, ?_, ?_, ?_⟩ <;> intro h
  · refine ⟨"Path is not a document: " ++ String.intercalate "/" p.root, ?_⟩
    simp only [FirestoreDocument.construct, FirestorePath.is_document]
    rw [if_neg (by simp [h])]
  · refine ⟨"Path is not a collection: " ++ String.intercalate "/" p.root, ?_⟩
    simp only [FirestoreCollection.construct, FirestorePath.is_collection]
    rw [if_neg (by simp [h])]
  · simp only [FirestoreDocument.construct, FirestorePath.is_document]
    rw [if_pos (by simp [h])]
  · simp only [FirestoreCollection.construct, FirestorePath.is_collection]
    rw [if_pos (by simp [h])]

/-- C4 (witness): the theorem applied to the odd-length path `("col",)`
and the even-length path `("col", "doc")`. -/
theorem C4_reference_parity_witness :
    (∃ e, FirestoreDocument.construct ⟨["col"]⟩ = .error e) ∧
    FirestoreCollection.construct ⟨["col"]⟩ = .ok ⟨⟨["col"]⟩⟩ ∧
    (∃ e, FirestoreCollection.construct ⟨["col", "doc"]⟩ = .error e) ∧
    FirestoreDocument.construct ⟨["col", "doc"]⟩ = .ok ⟨⟨["col", "doc"]⟩⟩ :=
  ⟨(C4_reference_parity ⟨["col"]⟩).1 (by simp),
   (C4_reference_parity ⟨["col"]⟩).2.2.2 (by simp),
   (C4_reference_parity ⟨["col", "doc"]⟩).2.1 (by simp),
   (C4_reference_parity ⟨["col", "doc"]⟩).2.2.1 (by simp)⟩

/-- C3 (counterexample): the claim says a sentinel whose payload
contains another sentinel pair is rejected with `InvalidSentinelError`;
in the code `_serialize_sentinel` raises nothing — serializing
`(INCREMENT, (INCREMENT, 5))` with the pass-through ordinary handler
succeeds (yielding an `Increment` whose operand is the inner pair, as a
literal tuple). -/
theorem C3_counterexample :
    ¬ ∃ e, serialize_sentinel (fun v => Except.ok v)
        (FValue.vtuple [FValue.vsent Sentinel.firestore_increment,
          FValue.vtuple [FValue.vsent Sentinel.firestore_increment, FValue.vint 5]]) =
      Except.error e := by
  rintro ⟨e, he⟩
  have hok : serialize_sentinel (fun v => Except.ok v)
      (FValue.vtuple [FValue.vsent Sentinel.firestore_increment,
        FValue.vtuple [FValue.vsent Sentinel.firestore_increment, FValue.vint 5]]) =
      Except.ok (FValue.increment
        (FValue.vtuple [FValue.vsent Sentinel.firestore_increment, FValue.vint 5])) := rfl
  rw [hok] at he
  exact Except.noConfusion he

/-- C3 (amended): nesting sentinels is NOT rejected — there is no
`InvalidSentinelError`.  For every sentinel pair, nested-sentinel
payloads included, the payload is serialized by the ordinary handler and
the tag's resolver is applied to the result; the sentinel serializer
itself never resolves (and never rejects) an inner pair, which therefore
reaches the resolver as a literal value. -/
theorem C3_amended (h : FValue → FValue) (t : Sentinel) (payload : FValue) :
    serialize_sentinel (fun v => .ok (h v)) (.vtuple [.vsent t, payload]) =
      .ok (t.to_firestore (h payload)) := rfl

/-- C7: a sentinel-tagged pair is never passed through as a literal: the
tag's resolver is applied to the handler-serialized payload;
`(INCREMENT, 5)` serializes to the backend's increment object carrying
operand `5`, which is not the literal value `5`; a value that is not a
sentinel pair goes through the ordinary handler unchanged. -/
theorem C7_sentinel_resolution :
    (∀ (h : FValue → Except String FValue) (t : Sentinel) (payload : FValue),
        serialize_sentinel h (.vtuple [.vsent t, payload]) =
          (h payload).map (fun v => t.to_firestore v)) ∧
    (∀ (h : FValue → Except String FValue) (v : FValue),
        sentinelPair v = none → serialize_sentinel h v = h v) ∧
    (serialize_sentinel (fun v => .ok v)
        (.vtuple [.vsent .firestore_increment, .vint 5]) =
      .ok (.increment (.vint 5))) ∧
    FValue.increment (FValue.vint 5) ≠ FValue.vint 5 := by
  refine ⟨fun _ _ _ => rfl, ?_, rfl, fun heq => FValue.noConfusion heq⟩
  intro h v hv
  simp only [serialize_sentinel, hv]

/-- C7 (witness): the non-sentinel branch of the theorem at the plain
value `3` with the pass-through handler. -/
theorem C7_sentinel_resolution_witness :
    sentinelPair (FValue.vint 3) = none ∧
    serialize_sentinel (fun v => Except.ok v) (FValue.vint 3) =
      Except.ok (FValue.vint 3) :=
  ⟨rfl, C7_sentinel_resolution.2.1 (fun v => Except.ok v) (FValue.vint 3) rfl⟩

/-! ## Helper lemmas for the flatten refinement -/

theorem flattenItem_not_map (exclude : List (List String)) (parent : List String)
    (key : String) (v : FValue) (hv : isMapping v = false) :
    flattenItem exclude parent key v = [(parent ++ [key], v)] := by
  cases v <;> simp_all [flattenItem, isMapping]

theorem flattenItem_map (exclude : List (List String)) (parent : List String)
    (key : String) (l : List (String × FValue)) :
    flattenItem exclude parent key (.vmap l) =
      if (parent ++ [key]) ∉ exclude then to_flatten_aux exclude (parent ++ [key]) l
      else [(parent ++ [key], .vmap l)] := by
  simp [flattenItem]

theorem flattenSpecNode_not_map (exclude : List (List String)) (path : List String)
    (v : FValue) (hv : isMapping v = false) :
    flattenSpecNode exclude path v = [(path, v)] := by
  rw [flattenSpecNode, dif_pos (Or.inr hv)]

theorem flattenSpecNode_map (exclude : List (List String)) (path : List String)
    (l : List (String × FValue)) :
    flattenSpecNode exclude path (.vmap l) =
      if path ∈ exclude then [(path, .vmap l)]
      else flattenSpecChildren exclude path l := by
  by_cases hmem : path ∈ exclude
  · rw [flattenSpecNode, dif_pos (Or.inl hmem), if_pos hmem]
  · rw [flattenSpecNode, dif_neg, if_neg hmem]
    · simp [mapItems]
    · simp [isMapping, hmem]

/-- The loop body of `_to_flatten` agrees with the spec's node rule, and
the loop agrees with the spec's child recursion (simultaneous strong
induction on size). -/
theorem flatten_agrees (n : Nat) :
    (∀ (exclude : List (List String)) (parent : List String) (key : String)
        (v : FValue), sizeOf v < n →
        flattenItem exclude parent key v = flattenSpecNode exclude (parent ++ [key]) v) ∧
    (∀ (exclude : List (List String)) (parent : List String)
        (obj : List (String × FValue)), sizeOf obj < n →
        to_flatten_aux exclude parent obj = flattenSpecChildren exclude parent obj) := by
  induction n with
  | zero =>
      constructor
      · intro _ _ _ v hv
        omega
      · intro _ _ obj hobj
        omega
  | succ n ih =>
      constructor
      · intro exclude parent key v hv
        by_cases hmap : isMapping v = false
        · rw [flattenItem_not_map _ _ _ _ hmap, flattenSpecNode_not_map _ _ _ hmap]
        · rcases v with _ | _ | _ | _ | l | _ | _ | _ | _ | _ | _ | _ <;>
            simp [isMapping] at hmap
          rw [flattenItem_map, flattenSpecNode_map]
          by_cases hmem : (parent ++ [key]) ∈ exclude
          · rw [if_neg (by simp [hmem]), if_pos hmem]
          · rw [if_pos hmem, if_neg hmem]
            have hsz : sizeOf l < n := by
              have := FValue.vmap.sizeOf_spec l
              omega
            exact ih.2 exclude (parent ++ [key]) l hsz
      · intro exclude parent obj hobj
        cases obj with
        | nil => simp [to_flatten_aux, flattenSpecChildren]
        | cons kv rest =>
            rcases kv with ⟨k, v⟩
            have hszv : sizeOf v < n := by
              have h1 := List.cons.sizeOf_spec (k, v) rest
              have h2 := Prod.mk.sizeOf_spec k v
              omega
            have hszr : sizeOf rest < n := by
              have h1 := List.cons.sizeOf_spec (k, v) rest
              have h2 := Prod.mk.sizeOf_spec k v
              omega
            rw [to_flatten_aux, flattenSpecChildren,
              ih.1 exclude parent k v hszv, ih.2 exclude parent rest hszr]

/-- C5: for every nested string-keyed mapping and every exclusion set,
the code's flattening (`_to_flatten` / `to_flatten`) equals the spec's
reference depth-first definition (path of a node = join of ancestor
keys; leaf when the path is excluded — by exact match — or the value is
not a mapping; recurse otherwise); the empty mapping flattens to the
empty mapping; excluding `a.b` emits the `a.b` subtree whole and does
not expand `a.b.c`. -/
theorem C5_flatten_refines_spec :
    (∀ (exclude : List (List String)) (parent : List String)
        (obj : List (String × FValue)),
        to_flatten_aux exclude parent obj = flattenSpecChildren exclude parent obj) ∧
    (∀ (obj : List (String × FValue)) (exclude : Option (List String)),
        to_flatten obj exclude =
          (flattenSpecChildren ((exclude.getD []).map FieldPath.from_string) [] obj).map
            (fun fv => (FieldPath.to_api_repr fv.1, fv.2))) ∧
    (∀ exclude, to_flatten [] exclude = []) ∧
    (to_flatten_aux [["a", "b"]] []
        [("a", FValue.vmap [("b", FValue.vmap [("c", FValue.vint 1)])])] =
      [(["a", "b"], FValue.vmap [("c", FValue.vint 1)])]) := by
  have key : ∀ (exclude : List (List String)) (parent : List String)
      (obj : List (String × FValue)),
      to_flatten_aux exclude parent obj = flattenSpecChildren exclude parent obj :=
    fun exclude parent obj =>
      (flatten_agrees (sizeOf obj + 1)).2 exclude parent obj (by omega)
  refine ⟨key, ?_, ?_, ?_⟩
  · intro obj exclude
    simp only [to_flatten, key]
  · intro exclude
    simp [to_flatten, to_flatten_aux]
  · rfl

/-- C1 (counterexample): with the location template `("users", "posts")`
(length 2) and the caller supplying the full-template-length arguments
`("x", "y")`, the claim predicts the LAST supplied segment `"y"` as the
document id and `("x",)` as the intermediates; the code executes
`id, *args = args`, taking the FIRST segment `"x"` as the id. -/
theorem C1_counterexample :
    firestore_path_resolve
        ⟨["users", "posts"], "recid", ["recpath"]⟩ ["x", "y"] ≠
      Except.ok ("y", ["x"]) := by
  intro h
  have hv : firestore_path_resolve
      ⟨["users", "posts"], "recid", ["recpath"]⟩ ["x", "y"] =
      Except.ok ("x", ["y"]) := rfl
  rw [hv] at h
  simp at h

/-- C1 (amended): the binder's three-branch rule, with the FIRST
supplied segment as the id in the full-length branch: if the caller
supplies exactly template-length segments, the first is the document id
and the rest are the intermediates verbatim; if exactly
template-length − 1, the id is read from the designated id field and the
supplied segments are the intermediates; otherwise the id and every
intermediate segment are read from the designated fields in declared
order. -/
theorem C1_amended (m : ModelInstance) (args : List String) :
    (∀ id rest, args = id :: rest →
        args.length = m.firestore_location.length →
        firestore_path_resolve m args = .ok (id, rest)) ∧
    (args.length + 1 = m.firestore_location.length →
        firestore_path_resolve m args = .ok (m.idFieldValue, args)) ∧
    (args.length ≠ m.firestore_location.length →
        args.length + 1 ≠ m.firestore_location.length →
        firestore_path_resolve m args =
          .ok (m.idFieldValue, m.pathFieldValues)) := by
  refine ⟨?_, ?_, ?_⟩
  · intro id rest hdec hlen
    simp only [firestore_path_resolve]
    rw [if_pos hlen, hdec]
  · intro hlen
    simp only [firestore_path_resolve]
    rw [if_neg (by omega), if_pos (by omega)]
  · intro h1 h2
    simp only [firestore_path_resolve]
    rw [if_neg h1, if_neg (by omega)]

/-- C1 (amended, witness): the three branches of the theorem at the
template `("users", "posts")`: two supplied segments, one supplied
segment, and none. -/
theorem C1_amended_witness :
    firestore_path_resolve ⟨["users", "posts"], "recid", ["recpath"]⟩ ["x", "y"] =
        .ok ("x", ["y"]) ∧
    firestore_path_resolve ⟨["users", "posts"], "recid", ["recpath"]⟩ ["z"] =
        .ok ("recid", ["z"]) ∧
    firestore_path_resolve ⟨["users", "posts"], "recid", ["recpath"]⟩ [] =
        .ok ("recid", ["recpath"]) :=
  ⟨(C1_amended ⟨["users", "posts"], "recid", ["recpath"]⟩ ["x", "y"]).1
      "x" ["y"] rfl (by simp),
   (C1_amended ⟨["users", "posts"], "recid", ["recpath"]⟩ ["z"]).2.1 (by simp),
   (C1_amended ⟨["users", "posts"], "recid", ["recpath"]⟩ []).2.2
      (by simp) (by simp)⟩

/-- C6: for every record (its serialized dump), every execution source
and every document coordinate, the update operation sends
`to_flatten dumped ignore_flatten` as its payload while create and set
send the dump unchanged; the methods dispatched are "update", "create"
and "set" respectively, through the handler classified from the
source. -/
theorem C6_update_flattens (source : Source) (dumped : List (String × FValue))
    (id : String) (args : List String) (ignore_flatten : Option (List String)) :
    ((firestore_update source dumped id args ignore_flatten).data =
        some (to_flatten dumped ignore_flatten) ∧
      (firestore_update source dumped id args ignore_flatten).method = "update" ∧
      (firestore_update source dumped id args ignore_flatten).handler =
        source_to_handler source) ∧
    ((firestore_create source dumped id args).data = some dumped ∧
      (firestore_create source dumped id args).method = "create" ∧
      (firestore_create source dumped id args).handler = source_to_handler source) ∧
    ((firestore_set source dumped id args).data = some dumped ∧
      (firestore_set source dumped id args).method = "set" ∧
      (firestore_set source dumped id args).handler = source_to_handler source) :=
  ⟨⟨rfl, rfl, rfl⟩, ⟨rfl, rfl, rfl⟩, ⟨rfl, rfl, rfl⟩⟩

end PydanticFirestore
